import Mathlib

/-
Verification of the weather-alerts browser client (src/index.js).

The source file concatenates three documents:
  - a first variant of the alerts app (lines 1-85): fetchWeatherAlerts,
    displayAlerts, showError, wired to a button;
  - a second variant (lines 85-167) of the same three functions, differing
    in the summary text, in the try/catch wrapper around the fetch, and in
    showError not clearing the alerts region;
  - a jest test file (lines 168-497) for a city-weather variant whose
    implementation (fetchWeatherData, displayWeather, displayError) is not
    present in src; those are modelled from the spec where needed.

JavaScript values are embedded as follows: a possibly-null/undefined string
becomes Option String (none covers both null and undefined); JS truthiness
of a string (the test `!state`) is false exactly on none and the empty
string.  The global fetch is an oracle parameter NetBehavior: either the
promise rejects with a message, or it resolves with an ok flag, a status
and an already-parsed JSON body.  An async function that can throw becomes
a function returning Except String together with a Bool recording whether
the network call was issued.  The DOM regions touched by the renderers
become an explicit record; a renderer that would throw a TypeError returns
none.
-/

/-- One child node appended to the alerts container: the JS code creates
h3, ul (holding li texts) and p elements. -/
inductive DomNode where
  | h3 (text : String)
  | ul (items : List String)
  | p (text : String)
deriving DecidableEq, Repr

/-- The DOM regions of the alerts app: the children of alertsDiv, the
visibility and text of errorDiv, and the value of stateInput.  In variant 1
visibility is driven by the "hidden" class, in variant 2 by style.display;
both are a single visible/hidden bit here. -/
structure DomState where
  alertsChildren : List DomNode
  errorVisible : Bool
  errorText : String
  inputValue : String
deriving DecidableEq, Repr

/-- properties of one alert feature. -/
structure AlertProps where
  headline : String
deriving DecidableEq, Repr

/-- One element of the features array. -/
structure Alert where
  properties : AlertProps
deriving DecidableEq, Repr

/-- Parsed alerts payload.  features is Option so that a payload in which
the field is absent (undefined) can be expressed; the JS code reads
data.features.length, which throws when the field is absent. -/
structure AlertPayload where
  features : Option (List Alert)
deriving DecidableEq, Repr

/-- Behavior of the mocked global fetch for one call: the promise rejects
with an error message, or resolves with ok, status and parsed body. -/
inductive NetBehavior (α : Type) where
  | reject (msg : String)
  | resolve (ok : Bool) (status : Nat) (data : α)
deriving DecidableEq, Repr

/-- JS truthiness test `!state` for a string that may be null or
undefined: true on none, null, undefined and the empty string. -/
def strFalsy : Option String → Bool
  | none => true
  | some s => s.isEmpty

namespace V1

/-- src/index.js lines 13-28.  Returns the outcome together with whether
the network call was issued. -/
def fetchWeatherAlerts (state : Option String) (net : NetBehavior AlertPayload) :
    Except String AlertPayload × Bool :=
  if strFalsy state then
    (Except.error "Please enter a state abbreviation.", false)
  else
    match net with
    | NetBehavior.reject m => (Except.error m, true)
    | NetBehavior.resolve ok _ data =>
        if ok then (Except.ok data, true)
        else (Except.error "Failed to fetch data. Please check your state code.", true)

/-- src/index.js lines 31-63.  Returns none when the JS code would throw
(data.features absent makes data.features.length a TypeError). -/
def displayAlerts (state : String) (data : AlertPayload) (dom : DomState) :
    Option DomState :=
  match data.features with
  | none => none
  | some fs =>
      let summary := DomNode.h3 ("Weather Alerts: " ++ toString fs.length)
      let rest :=
        if 0 < fs.length then
          [DomNode.ul (fs.map (fun a => a.properties.headline))]
        else
          [DomNode.p "No alerts at this time."]
      some { alertsChildren := summary :: rest
             errorVisible := false
             errorText := ""
             inputValue := "" }

/-- src/index.js lines 66-73: clears the alerts region, then shows the
message in the error region.  The input field is untouched. -/
def showError (message : String) (dom : DomState) : DomState :=
  { dom with alertsChildren := [], errorVisible := true, errorText := message }

end V1

namespace V2

/-- Body of the try block of the second fetchWeatherAlerts
(src/index.js lines 98-112), identical to the first variant. -/
def fetchBody (state : Option String) (net : NetBehavior AlertPayload) :
    Except String AlertPayload × Bool :=
  if strFalsy state then
    (Except.error "Please enter a state abbreviation.", false)
  else
    match net with
    | NetBehavior.reject m => (Except.error m, true)
    | NetBehavior.resolve ok _ data =>
        if ok then (Except.ok data, true)
        else (Except.error "Failed to fetch data. Please check your state code.", true)

/-- src/index.js lines 97-116: the same body wrapped in try/catch whose
handler rethrows the caught error unchanged. -/
def fetchWeatherAlerts (state : Option String) (net : NetBehavior AlertPayload) :
    Except String AlertPayload × Bool :=
  match fetchBody state net with
  | (Except.error m, called) => (Except.error m, called)
  | (Except.ok d, called) => (Except.ok d, called)

/-- src/index.js lines 119-149.  Same as the first variant except for the
summary text.  Returns none when the JS code would throw. -/
def displayAlerts (state : String) (data : AlertPayload) (dom : DomState) :
    Option DomState :=
  match data.features with
  | none => none
  | some fs =>
      let summary := DomNode.h3
        ("Current watches, warnings, and advisories for " ++ state ++ ": "
          ++ toString fs.length)
      let rest :=
        if 0 < fs.length then
          [DomNode.ul (fs.map (fun a => a.properties.headline))]
        else
          [DomNode.p "No alerts at this time."]
      some { alertsChildren := summary :: rest
             errorVisible := false
             errorText := ""
             inputValue := "" }

/-- src/index.js lines 152-155: shows the message in the error region.
Unlike the first variant, the alerts region is NOT cleared, and the input
field is untouched. -/
def showError (message : String) (dom : DomState) : DomState :=
  { dom with errorVisible := true, errorText := message }

end V2

/-- City-variant parsed payload, per the spec data model (name, country
code, temperature, humidity, optional description). -/
structure WeatherReading where
  name : String
  country : String
  temp : Int
  humidity : Int
  description : Option String
deriving DecidableEq, Repr

/-- City-variant input validation per the spec: invalid when the code is
null, undefined, or entirely whitespace after trimming (this includes the
empty string).  A string trims to empty exactly when every character is
whitespace, which is how it is phrased here. -/
def cityInvalid : Option String → Bool
  | none => true
  | some s => s.data.all (fun c => c.isWhitespace)

/-- Modelled from the spec: fetchWeatherData, the city-variant fetcher,
whose implementation is missing from src (only its tests are present).
Validation fails with "Please enter a city name." and no network call;
a transport rejection propagates verbatim; a non-ok response maps
404 to "City not found. Please check the city name.", 401 to
"Invalid API key. Please check your configuration.", and any other
status to "Failed to fetch weather data. Please try again.". -/
def fetchWeatherData (city : Option String) (net : NetBehavior WeatherReading) :
    Except String WeatherReading × Bool :=
  if cityInvalid city then
    (Except.error "Please enter a city name.", false)
  else
    match net with
    | NetBehavior.reject m => (Except.error m, true)
    | NetBehavior.resolve ok status data =>
        if ok then (Except.ok data, true)
        else if status == 404 then
          (Except.error "City not found. Please check the city name.", true)
        else if status == 401 then
          (Except.error "Invalid API key. Please check your configuration.", true)
        else
          (Except.error "Failed to fetch weather data. Please try again.", true)

/-- The DOM regions of the city variant, from the test harness markup:
city-name, temperature, humidity, description, the weather-display
container and the error region. -/
structure CityDom where
  cityName : String
  temperature : String
  humidity : String
  description : String
  weatherVisible : Bool
  errorVisible : Bool
  errorText : String
deriving DecidableEq, Repr

/-- First character upper-cased, rest unchanged; an absent description
renders as the empty string (the graceful, non-throwing behavior the
tests require). -/
def capFirst : Option String → String
  | none => ""
  | some s =>
      match s.data with
      | [] => ""
      | c :: cs => String.mk (Char.toUpper c :: cs)

/-- Modelled from the spec: displayWeather, the city-variant renderer,
whose implementation is missing from src (only its tests are present).
Writes "name, country", the Celsius and derived Fahrenheit temperature,
the humidity percentage and the capitalized description; shows the
weather region and hides/empties the error region.  Total: an absent
description is rendered as empty text rather than throwing. -/
def displayWeather (data : WeatherReading) (dom : CityDom) : CityDom :=
  { cityName := data.name ++ ", " ++ data.country
    temperature := toString data.temp ++ "°C (" ++ toString (data.temp * 9 / 5 + 32) ++ "°F)"
    humidity := toString data.humidity ++ "%"
    description := capFirst data.description
    weatherVisible := true
    errorVisible := false
    errorText := "" }

/-- Both regions of the alerts app populated at once: the alerts container
holds children while the error region is visible. -/
def bothPopulated (d : DomState) : Bool :=
  !d.alertsChildren.isEmpty && d.errorVisible

/-- A concrete empty-features payload used by concrete evaluations. -/
def payload0 : AlertPayload := { features := some [] }

/-- A concrete starting DOM state used by concrete evaluations. -/
def dom0 : DomState :=
  { alertsChildren := [], errorVisible := false, errorText := "", inputValue := "TX" }

/-- The summary node of a render outcome: the first child of alertsDiv. -/
def renderedSummary (o : Option DomState) : Option DomNode :=
  o.bind (fun d => d.alertsChildren.head?)

/-- The nodes a render outcome wrote after the summary. -/
def renderedItems (o : Option DomState) : Option (List DomNode) :=
  o.map (fun d => d.alertsChildren.tail)

/-- C10: showError leaves the input field unchanged in both variants; only
the success renderer clears it. -/
theorem C10_showError_preserves_input (m : String) (dom : DomState) :
    (V1.showError m dom).inputValue = dom.inputValue ∧
    (V2.showError m dom).inputValue = dom.inputValue :=
  ⟨rfl, rfl⟩

/-- C9: the two fetchWeatherAlerts definitions (plain, and wrapped in a
try/catch that rethrows) agree on every input and every fetch behavior,
both in the outcome and in whether the network call was issued. -/
theorem C9_fetch_variants_equal (st : Option String) (net : NetBehavior AlertPayload) :
    V1.fetchWeatherAlerts st net = V2.fetchWeatherAlerts st net := by
  unfold V1.fetchWeatherAlerts V2.fetchWeatherAlerts V2.fetchBody
  by_cases h : strFalsy st <;> rcases net with m | ⟨ok, status, data⟩ <;>
    simp [h] <;> rcases ok <;> simp

/-- C8: displayAlerts, on any payload carrying a features list and from any
prior display state, leaves the error region hidden with empty text and the
input field empty, in both variants. -/
theorem C8_displayAlerts_clears (st : String) (fs : List Alert) (dom : DomState) :
    (V1.displayAlerts st { features := some fs } dom).map
      (fun d => (d.errorVisible, d.errorText, d.inputValue)) = some (false, "", "") ∧
    (V2.displayAlerts st { features := some fs } dom).map
      (fun d => (d.errorVisible, d.errorText, d.inputValue)) = some (false, "", "") := by
  constructor <;> simp [V1.displayAlerts, V2.displayAlerts]

/-- C7: on a payload with features list fs, displayAlerts writes after the
summary exactly one ul holding one item per alert (its headline, in order)
when fs is nonempty, and the text "No alerts at this time." when fs is
empty, in both variants. -/
theorem C7_items_per_alert (st : String) (fs : List Alert) (dom : DomState) :
    renderedItems (V1.displayAlerts st { features := some fs } dom) =
      some (if 0 < fs.length then
              [DomNode.ul (fs.map (fun a => a.properties.headline))]
            else
              [DomNode.p "No alerts at this time."]) ∧
    renderedItems (V2.displayAlerts st { features := some fs } dom) =
      some (if 0 < fs.length then
              [DomNode.ul (fs.map (fun a => a.properties.headline))]
            else
              [DomNode.p "No alerts at this time."]) := by
  constructor <;> simp [renderedItems, V1.displayAlerts, V2.displayAlerts]

/-- C6: a transport-level rejection of the fetch propagates its message
verbatim out of both fetchWeatherAlerts variants and out of
fetchWeatherData, not re-wrapped. -/
theorem C6_network_error_passthrough (st c : Option String) (m : String)
    (hst : strFalsy st = false) (hc : cityInvalid c = false) :
    V1.fetchWeatherAlerts st (NetBehavior.reject m) = (Except.error m, true) ∧
    V2.fetchWeatherAlerts st (NetBehavior.reject m) = (Except.error m, true) ∧
    fetchWeatherData c (NetBehavior.reject m) = (Except.error m, true) := by
  refine ⟨?_, ?_, ?_⟩ <;>
    simp [V1.fetchWeatherAlerts, V2.fetchWeatherAlerts, V2.fetchBody,
      fetchWeatherData, hst, hc]

/-- Witness for C6 at state "TX", city "London", message "Network error". -/
theorem C6_network_error_passthrough_witness :
    V1.fetchWeatherAlerts (some "TX") (NetBehavior.reject "Network error") =
      (Except.error "Network error", true) ∧
    V2.fetchWeatherAlerts (some "TX") (NetBehavior.reject "Network error") =
      (Except.error "Network error", true) ∧
    fetchWeatherData (some "London") (NetBehavior.reject "Network error") =
      (Except.error "Network error", true) :=
  C6_network_error_passthrough (some "TX") (some "London") "Network error"
    (by decide) (by decide)

/-- C5 counterexample: the first displayAlerts variant writes the summary
"Weather Alerts: 0", not "Current watches, warnings, and advisories for
TX: 0", so the claimed summary text does not hold for every renderer call. -/
theorem C5_counterexample :
    renderedSummary (V1.displayAlerts "TX" payload0 dom0) =
      some (DomNode.h3 "Weather Alerts: 0") ∧
    DomNode.h3 "Weather Alerts: 0" ≠
      DomNode.h3 "Current watches, warnings, and advisories for TX: 0" := by
  constructor
  · rfl
  · decide

/-- C5 amended: the second displayAlerts variant writes the summary
"Current watches, warnings, and advisories for {location}: {count}" with
count the length of the features list; the first variant instead writes
"Weather Alerts: {count}" with no location. -/
theorem C5_summary_line (st : String) (fs : List Alert) (dom : DomState) :
    renderedSummary (V2.displayAlerts st { features := some fs } dom) =
      some (DomNode.h3 ("Current watches, warnings, and advisories for " ++ st
        ++ ": " ++ toString fs.length)) ∧
    renderedSummary (V1.displayAlerts st { features := some fs } dom) =
      some (DomNode.h3 ("Weather Alerts: " ++ toString fs.length)) := by
  constructor <;> simp [renderedSummary, V1.displayAlerts, V2.displayAlerts]

/-- C3 counterexample: on a payload whose features field is absent, both
displayAlerts variants throw (data.features.length is a TypeError), so the
renderer entry points are not total over all payloads. -/
theorem C3_counterexample :
    V1.displayAlerts "TX" { features := none } dom0 = none ∧
    V2.displayAlerts "TX" { features := none } dom0 = none :=
  ⟨rfl, rfl⟩

/-- C3 amended: displayAlerts completes without throwing on every payload
that carries a features list, in both variants; the showError variants are
total by construction; and the city renderer handles an absent description
gracefully, rendering empty description text instead of throwing. -/
theorem C3_renderers_total (st nm co : String) (t h : Int) (fs : List Alert)
    (dom : DomState) (cdom : CityDom) :
    (V1.displayAlerts st { features := some fs } dom).isSome = true ∧
    (V2.displayAlerts st { features := some fs } dom).isSome = true ∧
    (displayWeather (WeatherReading.mk nm co t h none) cdom).description = "" := by
  refine ⟨?_, ?_, ?_⟩ <;>
    simp [V1.displayAlerts, V2.displayAlerts, displayWeather, capFirst]

/-- C1 counterexample: after the second variant renders alerts and its
showError is then called, the error region is visible while the results
region still holds its children — both regions are populated at once. -/
theorem C1_counterexample :
    (V2.displayAlerts "TX" payload0 dom0).isSome = true ∧
    bothPopulated
      (V2.showError "Network error" ((V2.displayAlerts "TX" payload0 dom0).getD dom0))
        = true := by
  constructor
  · rfl
  · rfl

/-- C1 amended: displayAlerts establishes mutual exclusion in both variants
(whenever it completes, the error region is hidden), and the first
showError variant clears the results region while showing the error; only
the second showError variant leaves the results region populated, so the
invariant fails for it. -/
theorem C1_mutual_exclusion :
    (∀ st data dom, (V1.displayAlerts st data dom).all (fun d => !bothPopulated d) = true) ∧
    (∀ st data dom, (V2.displayAlerts st data dom).all (fun d => !bothPopulated d) = true) ∧
    (∀ m dom, bothPopulated (V1.showError m dom) = false) := by
  refine ⟨?_, ?_, ?_⟩
  · intro st data dom
    rcases data with ⟨_ | fs⟩ <;> simp [V1.displayAlerts, bothPopulated]
  · intro st data dom
    rcases data with ⟨_ | fs⟩ <;> simp [V2.displayAlerts, bothPopulated]
  · intro m dom
    simp [V1.showError, bothPopulated]

/-- C2 counterexample: the alerts fetcher treats the whitespace-only code
"   " as valid (JS truthiness), issues the network call, and returns the
payload — it does not fail with the InvalidInput error. -/
theorem C2_counterexample :
    (V1.fetchWeatherAlerts (some "   ") (NetBehavior.resolve true 200 payload0)).2
        = true ∧
    (V1.fetchWeatherAlerts (some "   ") (NetBehavior.resolve true 200 payload0)).1
        = Except.ok payload0 :=
  ⟨rfl, rfl⟩

/-- C2 amended: for a null, undefined or empty location code both alerts
fetch variants fail immediately with "Please enter a state abbreviation."
and issue no network call; the city fetcher additionally rejects
whitespace-only codes, failing with "Please enter a city name." and no
network call.  The alerts variants do not reject whitespace-only codes. -/
theorem C2_invalid_input (st c : Option String)
    (net : NetBehavior AlertPayload) (cnet : NetBehavior WeatherReading)
    (hst : strFalsy st = true) (hc : cityInvalid c = true) :
    V1.fetchWeatherAlerts st net = (Except.error "Please enter a state abbreviation.", false) ∧
    V2.fetchWeatherAlerts st net = (Except.error "Please enter a state abbreviation.", false) ∧
    fetchWeatherData c cnet = (Except.error "Please enter a city name.", false) := by
  refine ⟨?_, ?_, ?_⟩ <;>
    simp [V1.fetchWeatherAlerts, V2.fetchWeatherAlerts, V2.fetchBody,
      fetchWeatherData, hst, hc]

/-- Witness for the amended C2 at an empty state code and a
whitespace-only city code. -/
theorem C2_invalid_input_witness :
    V1.fetchWeatherAlerts (some "") (NetBehavior.reject "x") =
      (Except.error "Please enter a state abbreviation.", false) ∧
    V2.fetchWeatherAlerts (some "") (NetBehavior.reject "x") =
      (Except.error "Please enter a state abbreviation.", false) ∧
    fetchWeatherData (some "   ") (NetBehavior.reject "x") =
      (Except.error "Please enter a city name.", false) :=
  C2_invalid_input (some "") (some "   ") (NetBehavior.reject "x")
    (NetBehavior.reject "x") (by decide) (by decide)

/-- C4 counterexample: on an HTTP 401 response the alerts fetcher fails
with the generic "Failed to fetch data. Please check your state code.",
not with "Invalid API key. Please check your configuration." as the claim
assigns to status 401. -/
theorem C4_counterexample :
    (V1.fetchWeatherAlerts (some "TX") (NetBehavior.resolve false 401 payload0)).1
        = Except.error "Failed to fetch data. Please check your state code." ∧
    "Failed to fetch data. Please check your state code." ≠
      "Invalid API key. Please check your configuration." := by
  constructor
  · rfl
  · decide

/-- C4 amended: the city fetcher maps 404 to "City not found. Please check
the city name.", 401 to "Invalid API key. Please check your
configuration.", and any other non-ok status to "Failed to fetch weather
data. Please try again."; the alerts fetch variants map every non-ok
status, whatever it is, to the generic "Failed to fetch data. Please
check your state code." -/
theorem C4_http_error_messages (c st : Option String) (status other : Nat)
    (data : WeatherReading) (adata : AlertPayload)
    (hc : cityInvalid c = false) (hst : strFalsy st = false)
    (h404 : other ≠ 404) (h401 : other ≠ 401) :
    fetchWeatherData c (NetBehavior.resolve false 404 data) =
      (Except.error "City not found. Please check the city name.", true) ∧
    fetchWeatherData c (NetBehavior.resolve false 401 data) =
      (Except.error "Invalid API key. Please check your configuration.", true) ∧
    fetchWeatherData c (NetBehavior.resolve false other data) =
      (Except.error "Failed to fetch weather data. Please try again.", true) ∧
    V1.fetchWeatherAlerts st (NetBehavior.resolve false status adata) =
      (Except.error "Failed to fetch data. Please check your state code.", true) ∧
    V2.fetchWeatherAlerts st (NetBehavior.resolve false status adata) =
      (Except.error "Failed to fetch data. Please check your state code.", true) := by
  refine ⟨?_, ?_, ?_, ?_, ?_⟩ <;>
    simp [V1.fetchWeatherAlerts, V2.fetchWeatherAlerts, V2.fetchBody,
      fetchWeatherData, hst, hc, h404, h401]

/-- Witness for the amended C4 at city "London", state "TX", an alerts
status of 401 and an other-status of 500. -/
theorem C4_http_error_messages_witness :
    fetchWeatherData (some "London")
        (NetBehavior.resolve false 404 (WeatherReading.mk "x" "y" 0 0 none)) =
      (Except.error "City not found. Please check the city name.", true) ∧
    fetchWeatherData (some "London")
        (NetBehavior.resolve false 401 (WeatherReading.mk "x" "y" 0 0 none)) =
      (Except.error "Invalid API key. Please check your configuration.", true) ∧
    fetchWeatherData (some "London")
        (NetBehavior.resolve false 500 (WeatherReading.mk "x" "y" 0 0 none)) =
      (Except.error "Failed to fetch weather data. Please try again.", true) ∧
    V1.fetchWeatherAlerts (some "TX") (NetBehavior.resolve false 401 payload0) =
      (Except.error "Failed to fetch data. Please check your state code.", true) ∧
    V2.fetchWeatherAlerts (some "TX") (NetBehavior.resolve false 401 payload0) =
      (Except.error "Failed to fetch data. Please check your state code.", true) :=
  C4_http_error_messages (some "London") (some "TX") 401 500
    (WeatherReading.mk "x" "y" 0 0 none) payload0
    (by decide) (by decide) (by decide) (by decide)
